import Mathlib

/-!
Verification of the PDP (Participant Discovery Protocol) core of a DDS-RTPS
implementation, shallowly embedded from
`src/src/cpp/rtps/builtin/discovery/participant/PDP.cpp`.

Pointer-manipulating C++ is translated into pure state-passing functions:
the per-PDP store (active list and free list of `ParticipantProxy` shells,
builtin reader/writer histories) and the process-wide proxy-data pools
(free vectors, allocation counters and weak-reference maps) become fields
of explicit state records, and every operation returns the updated state
together with the listener/EDP events it emits, in emission order.
Machine bytes are modelled as `Nat`, time instants of the steady clock as
microseconds (`Nat`), and `Duration_t` as seconds plus nanoseconds as in
the source.
-/

namespace PDPModel

/-- 12-byte participant identifier portion of a GUID (`GuidPrefix_t`). -/
structure GuidPrefix_t where
  value : List Nat
deriving DecidableEq

/-- 4-byte entity identifier within a participant (`EntityId_t`). -/
structure EntityId_t where
  value : List Nat
deriving DecidableEq

/-- `GUID_t` is the concatenation of a guid prefix and an entity id. -/
structure GUID_t where
  guidPrefix : GuidPrefix_t
  entityId : EntityId_t
deriving DecidableEq

/-- `c_GuidPrefix_Unknown`: twelve zero bytes. -/
def c_GuidPrefix_Unknown : GuidPrefix_t := ⟨List.replicate 12 0⟩

/-- `c_EntityId_Unknown`: four zero bytes. -/
def c_EntityId_Unknown : EntityId_t := ⟨List.replicate 4 0⟩

/-- `c_Guid_Unknown` (also `GUID_t::unknown()`). -/
def c_Guid_Unknown : GUID_t := ⟨c_GuidPrefix_Unknown, c_EntityId_Unknown⟩

/-- `Duration_t`: seconds and nanoseconds, as in the fastrtps time types. -/
structure Duration_t where
  seconds : Int
  nanosec : Nat
deriving DecidableEq

/-- `c_TimeZero`. -/
def c_TimeZero : Duration_t := ⟨0, 0⟩

/-- The `operator<=` on `Duration_t`: lexicographic on (seconds, nanosec). -/
def Duration_t.le (a b : Duration_t) : Bool :=
  a.seconds < b.seconds || (a.seconds == b.seconds && a.nanosec ≤ b.nanosec)

/-- `ParticipantDiscoveryInfo::DISCOVERY_STATUS`. -/
inductive DiscoveryStatus
  | DISCOVERED_PARTICIPANT
  | CHANGED_QOS_PARTICIPANT
  | REMOVED_PARTICIPANT
  | DROPPED_PARTICIPANT
  | IGNORED_PARTICIPANT
deriving DecidableEq

/-- `ReaderDiscoveryInfo::DISCOVERY_STATUS`. -/
inductive ReaderStatus
  | DISCOVERED_READER
  | CHANGED_QOS_READER
  | REMOVED_READER
deriving DecidableEq

/-- `WriterDiscoveryInfo::DISCOVERY_STATUS`. -/
inductive WriterStatus
  | DISCOVERED_WRITER
  | CHANGED_QOS_WRITER
  | REMOVED_WRITER
deriving DecidableEq

/-- `ParticipantProxyData` (PPD): the shareable record of one participant's
advertised state. Only the fields the verified operations read are kept:
the GUID, the 16-byte instance key, the lease duration (microseconds, as
`lease_duration_us_`), the announcement version and the opaque user data. -/
structure ParticipantProxyData where
  m_guid : GUID_t
  m_key : List Nat
  lease_duration_us : Nat
  version : Nat
  m_userData : List Nat
deriving DecidableEq

/-- A default-constructed / cleared `ParticipantProxyData`. -/
def ParticipantProxyData.cleared : ParticipantProxyData :=
  ⟨c_Guid_Unknown, List.replicate 16 0, 0, 0, []⟩

/-- The instance-key derivation of `initializeParticipantProxyData`:
the twelve prefix bytes followed by the four entity-id bytes. -/
def guid_to_key (g : GUID_t) : List Nat :=
  g.guidPrefix.value ++ g.entityId.value

/-- `ReaderProxyData`: per-endpoint record. The locator capacities are fixed
at creation; the advertised QoS/topic metadata is abstracted as one field. -/
structure ReaderProxyData where
  guid : GUID_t
  max_unicast_locators : Nat
  max_multicast_locators : Nat
  qos_data : Nat
deriving DecidableEq

/-- `ReaderProxyData::clear`: wipe the mutable fields, keep the capacities. -/
def ReaderProxyData.clear (r : ReaderProxyData) : ReaderProxyData :=
  ⟨c_Guid_Unknown, r.max_unicast_locators, r.max_multicast_locators, 0⟩

/-- `WriterProxyData`: per-endpoint record, symmetric to `ReaderProxyData`. -/
structure WriterProxyData where
  guid : GUID_t
  max_unicast_locators : Nat
  max_multicast_locators : Nat
  qos_data : Nat
deriving DecidableEq

/-- `WriterProxyData::clear`: wipe the mutable fields, keep the capacities. -/
def WriterProxyData.clear (w : WriterProxyData) : WriterProxyData :=
  ⟨c_Guid_Unknown, w.max_unicast_locators, w.max_multicast_locators, 0⟩

/-- `ParticipantProxy`: the per-PDP shell holding the strong reference to one
PPD, the owned endpoint lists, the builtin endpoint lists, the last-received
timestamp (microseconds on the steady clock) and the lease bookkeeping. -/
structure ParticipantProxy where
  proxy_data : ParticipantProxyData
  readers_ : List ReaderProxyData
  writers_ : List WriterProxyData
  builtin_readers_ : List ReaderProxyData
  builtin_writers_ : List WriterProxyData
  last_received_message_tm : Nat
  should_check_lease_duration : Bool
  has_lease_duration_event : Bool
deriving DecidableEq

/-- `ParticipantProxy::get_guid` reads the guid of the attached PPD. -/
def ParticipantProxy.get_guid (p : ParticipantProxy) : GUID_t :=
  p.proxy_data.m_guid

/-- `ParticipantProxy::clear`: drop the strong references to the PPD and to
every endpoint proxy; the timed event owned by the shell is kept. -/
def ParticipantProxy.clear (p : ParticipantProxy) : ParticipantProxy :=
  { proxy_data := ParticipantProxyData.cleared
    readers_ := []
    writers_ := []
    builtin_readers_ := []
    builtin_writers_ := []
    last_received_message_tm := 0
    should_check_lease_duration := false
    has_lease_duration_event := p.has_lease_duration_event }

/-- One observable effect of a store operation: a listener callback, an EDP
or WLP hook, or a logged warning, recorded in emission order. -/
inductive Event
  | onReaderDiscovery (status : ReaderStatus) (guid : GUID_t)
  | onWriterDiscovery (status : WriterStatus) (guid : GUID_t)
  | onParticipantDiscovery (status : DiscoveryStatus) (guid : GUID_t)
  | edpUnpairReaderProxy (participant : GUID_t) (reader : GUID_t)
  | edpUnpairWriterProxy (participant : GUID_t) (writer : GUID_t)
  | wlpRemoveRemoteEndpoints (participant : GUID_t)
  | edpRemoveRemoteEndpoints (participant : GUID_t)
  | pdpRemoveRemoteEndpoints (participant : GUID_t)
  | logWarning
deriving DecidableEq

/-- Lookup in an association-list model of a `std::map`: the value stored
under `k`, if any. -/
def mapGet {α β : Type} [BEq α] (m : List (α × β)) (k : α) : Option β :=
  (m.find? (fun e => e.1 == k)).map (fun e => e.2)

/-- `std::map::operator[]` assignment: any entry under `k` is replaced. -/
def mapStore {α β : Type} [BEq α] (m : List (α × β)) (k : α) (v : β) :
    List (α × β) :=
  (k, v) :: m.filter (fun e => !(e.1 == k))

/-- `std::map::erase(k)`. -/
def mapErase {α β : Type} [BEq α] (m : List (α × β)) (k : α) : List (α × β) :=
  m.filter (fun e => !(e.1 == k))

/-- The process-wide writer proxy-data pool shared by all PDP instances:
the free vector `writer_proxies_pool_`, the allocation counter
`writer_proxies_number_`, the weak-reference map `pool_writer_references_`
and the `max_size()` bound of the free vector. All of it is guarded by the
single reentrant `pool_mutex_`. -/
structure WriterPoolState where
  writer_proxies_pool_ : List WriterProxyData
  writer_proxies_number_ : Nat
  pool_writer_references_ : List (GUID_t × WriterProxyData)
  max_size : Nat
deriving DecidableEq

/-- `PDP::get_alived_writer_proxy`: recreate a strong reference from the weak
map, `none` when the GUID has no entry. -/
def get_alived_writer_proxy (ps : WriterPoolState) (guid : GUID_t) :
    Option WriterProxyData :=
  mapGet ps.pool_writer_references_ guid

/-- `PDP::get_from_writer_proxy_pool`: return the live object for `guid` when
the weak map holds one; otherwise take the last entry of the free vector, or
allocate a new object while `writer_proxies_number_` is below the vector's
`max_size()`, and record a weak reference under `guid`. A reached cap logs a
warning and yields `none`. -/
def get_from_writer_proxy_pool (ps : WriterPoolState) (guid : GUID_t)
    (max_unicast_locators max_multicast_locators : Nat) :
    Option WriterProxyData × WriterPoolState × List Event :=
  match get_alived_writer_proxy ps guid with
  | some w => (some w, ps, [])
  | none =>
    match ps.writer_proxies_pool_.getLast? with
    | none =>
      if ps.writer_proxies_number_ < ps.max_size then
        let fresh : WriterProxyData :=
          ⟨c_Guid_Unknown, max_unicast_locators, max_multicast_locators, 0⟩
        (some fresh,
         { ps with
            writer_proxies_number_ := ps.writer_proxies_number_ + 1
            pool_writer_references_ :=
              mapStore ps.pool_writer_references_ guid fresh },
         [])
      else
        (none, ps, [Event.logWarning])
    | some w =>
      (some w,
       { ps with
          writer_proxies_pool_ := ps.writer_proxies_pool_.dropLast
          pool_writer_references_ := mapStore ps.pool_writer_references_ guid w },
       [])

/-- `PDP::return_writer_proxy_to_pool`: the custom release hook that runs when
the last strong reference to a pooled `WriterProxyData` drops. It reads the
object's GUID, clears the object under its own lock and then, under the pool
lock, erases the weak-map entry and pushes the cleared object onto the free
vector. An object whose GUID was never set is not pool-managed and is left
out. -/
def return_writer_proxy_to_pool (ps : WriterPoolState) (p : WriterProxyData) :
    WriterPoolState :=
  let guid := p.guid
  let cleared := p.clear
  if guid ≠ c_Guid_Unknown then
    { ps with
       pool_writer_references_ := mapErase ps.pool_writer_references_ guid
       writer_proxies_pool_ := ps.writer_proxies_pool_ ++ [cleared] }
  else
    ps

/-- The process-wide reader proxy-data pool, symmetric to
`WriterPoolState`. -/
structure ReaderPoolState where
  reader_proxies_pool_ : List ReaderProxyData
  reader_proxies_number_ : Nat
  pool_reader_references_ : List (GUID_t × ReaderProxyData)
  max_size : Nat
deriving DecidableEq

/-- `PDP::get_alived_reader_proxy`. -/
def get_alived_reader_proxy (ps : ReaderPoolState) (guid : GUID_t) :
    Option ReaderProxyData :=
  mapGet ps.pool_reader_references_ guid

/-- `PDP::get_from_reader_proxy_pool`, mirror of
`get_from_writer_proxy_pool`. -/
def get_from_reader_proxy_pool (ps : ReaderPoolState) (guid : GUID_t)
    (max_unicast_locators max_multicast_locators : Nat) :
    Option ReaderProxyData × ReaderPoolState × List Event :=
  match get_alived_reader_proxy ps guid with
  | some r => (some r, ps, [])
  | none =>
    match ps.reader_proxies_pool_.getLast? with
    | none =>
      if ps.reader_proxies_number_ < ps.max_size then
        let fresh : ReaderProxyData :=
          ⟨c_Guid_Unknown, max_unicast_locators, max_multicast_locators, 0⟩
        (some fresh,
         { ps with
            reader_proxies_number_ := ps.reader_proxies_number_ + 1
            pool_reader_references_ :=
              mapStore ps.pool_reader_references_ guid fresh },
         [])
      else
        (none, ps, [Event.logWarning])
    | some r =>
      (some r,
       { ps with
          reader_proxies_pool_ := ps.reader_proxies_pool_.dropLast
          pool_reader_references_ := mapStore ps.pool_reader_references_ guid r },
       [])

/-- `PDP::return_reader_proxy_to_pool`, mirror of
`return_writer_proxy_to_pool`. -/
def return_reader_proxy_to_pool (ps : ReaderPoolState) (p : ReaderProxyData) :
    ReaderPoolState :=
  let guid := p.guid
  let cleared := p.clear
  if guid ≠ c_Guid_Unknown then
    { ps with
       pool_reader_references_ := mapErase ps.pool_reader_references_ guid
       reader_proxies_pool_ := ps.reader_proxies_pool_ ++ [cleared] }
  else
    ps

/-- `CacheChange_t` as the PDP builtin endpoints use it: the change kind, the
16-byte instance handle and the `ParticipantProxyData` its payload
serializes. -/
inductive ChangeKind_t
  | ALIVE
  | NOT_ALIVE_DISPOSED_UNREGISTERED
deriving DecidableEq

structure CacheChange_t where
  kind : ChangeKind_t
  instanceHandle : List Nat
  payload : ParticipantProxyData
deriving DecidableEq

/-- The state of one PDP instance (its store) together with the slices of the
process-wide static pools its operations touch. `localGuid` is
`mp_RTPSParticipant->getGuid()`; `hasEDP`, `hasWLP` and `hasListener` model
`mp_EDP != nullptr`, `mp_builtin->mp_WLP != nullptr` and
`mp_RTPSParticipant->getListener() != nullptr`. -/
structure PDPState where
  localGuid : GUID_t
  -- the store: active list, free list, shell allocation counter and the
  -- `max_size()` of the `ResourceLimitedVector` of shells
  participant_proxies_ : List ParticipantProxy
  participant_proxies_pool_ : List ParticipantProxy
  participant_proxies_number_ : Nat
  max_participants : Nat
  -- process-wide participant proxy-data pool (static members of PDP)
  participant_proxies_data_pool_ : List ParticipantProxyData
  participant_proxies_data_number_ : Nat
  pool_participant_references_ : List (GuidPrefix_t × ParticipantProxyData)
  -- process-wide endpoint proxy-data pools
  readerPool : ReaderPoolState
  writerPool : WriterPoolState
  -- builtin endpoints
  pdp_writer_history : List CacheChange_t
  pdp_reader_history : List CacheChange_t
  m_hasChangedLocalPDP : Bool
  -- configured locator capacities (allocation.locators)
  max_unicast_locators : Nat
  max_multicast_locators : Nat
  -- collaborators
  hasEDP : Bool
  hasWLP : Bool
  hasListener : Bool
deriving DecidableEq

/-- The endpoint-unpairing loop of `PDP::remove_remote_participant` over the
detached shell's reader list: for every reader proxy whose GUID is known,
invoke `EDP::unpairReaderProxy` and, when a listener is installed, deliver a
`REMOVED_READER` discovery callback. -/
def reader_removal_events (participant : GUID_t) (hasListener : Bool) :
    List ReaderProxyData → List Event
  | [] => []
  | r :: rest =>
    (if r.guid ≠ c_Guid_Unknown then
      Event.edpUnpairReaderProxy participant r.guid ::
        (if hasListener then
          [Event.onReaderDiscovery ReaderStatus.REMOVED_READER r.guid]
         else [])
     else []) ++ reader_removal_events participant hasListener rest

/-- The writer half of the endpoint-unpairing loop of
`PDP::remove_remote_participant`. -/
def writer_removal_events (participant : GUID_t) (hasListener : Bool) :
    List WriterProxyData → List Event
  | [] => []
  | w :: rest =>
    (if w.guid ≠ c_Guid_Unknown then
      Event.edpUnpairWriterProxy participant w.guid ::
        (if hasListener then
          [Event.onWriterDiscovery WriterStatus.REMOVED_WRITER w.guid]
         else [])
     else []) ++ writer_removal_events participant hasListener rest

/-- `PDP::remove_remote_participant(partGUID, reason)` translated step by
step: refuse the local participant's own GUID; find the shell in the active
list, detach it (or return `false` when absent); outside the store lock run
the EDP unpair loop with `REMOVED` callbacks over the shell's endpoints;
purge remote-endpoint bookkeeping through WLP, EDP and the PDP itself; erase
from the builtin-reader history the first cache change whose instance handle
equals the shell's PPD key; deliver the participant-level callback with
`reason`; clear the shell, push it onto the free list and return `true`.
Result: (returned bool, updated state, events in emission order). -/
def remove_remote_participant (st : PDPState) (partGUID : GUID_t)
    (reason : DiscoveryStatus) : Bool × PDPState × List Event :=
  if partGUID == st.localGuid then
    -- avoid removing our own data
    (false, st, [])
  else
    match st.participant_proxies_.find?
        (fun pp => pp.get_guid == partGUID) with
    | none => (false, st, [])
    | some pdata =>
      let active := st.participant_proxies_.eraseP
        (fun pp => pp.get_guid == partGUID)
      let endpointEvents :=
        if st.hasEDP then
          reader_removal_events partGUID st.hasListener pdata.readers_ ++
          writer_removal_events partGUID st.hasListener pdata.writers_
        else []
      let purgeEvents :=
        (if st.hasWLP then [Event.wlpRemoveRemoteEndpoints partGUID] else []) ++
        [Event.edpRemoveRemoteEndpoints partGUID,
         Event.pdpRemoveRemoteEndpoints partGUID]
      let history := st.pdp_reader_history.eraseP
        (fun c => c.instanceHandle == pdata.proxy_data.m_key)
      let participantEvents :=
        if st.hasListener then
          [Event.onParticipantDiscovery reason partGUID]
        else []
      (true,
       { st with
          participant_proxies_ := active
          pdp_reader_history := history
          participant_proxies_pool_ :=
            st.participant_proxies_pool_ ++ [pdata.clear] },
       endpointEvents ++ purgeEvents ++ participantEvents)

/-- Outcome of `PDP::add_participant_proxy`. `ok` returns the shell appended
to the active list (the C++ returns it with the PPD lock still held);
`refused` is the `nullptr` return; `nullDeref` marks the path of the
`shared_ptr` overload that dereferences the null `ret_val` when the shell
free list is empty and the shell cap is already reached. -/
inductive AddProxyResult
  | ok (shell : ParticipantProxy) (st : PDPState) (evs : List Event)
  | refused (st : PDPState) (evs : List Event)
  | nullDeref (st : PDPState) (evs : List Event)
deriving DecidableEq

/-- The `shared_ptr<ParticipantProxyData>` overload of
`PDP::add_participant_proxy`: refuse a null PPD; take a shell from the local
free list (last entry) or allocate one while `participant_proxies_number_` is
below `participant_proxies_.max_size()` — a freshly allocated shell for a
non-local participant receives a lease-duration timed event; attach the PPD,
record `with_lease_duration` and append the shell to the active list. When
the free list is empty and the cap is reached, `ret_val` stays null and the
subsequent `ret_val->get_lease_duration_event()` dereferences it. -/
def add_participant_proxy_ppd (st : PDPState)
    (ppd : Option ParticipantProxyData) (with_lease_duration : Bool) :
    AddProxyResult :=
  match ppd with
  | none => .refused st []
  | some ppd =>
    match st.participant_proxies_pool_.getLast? with
    | none =>
      if st.participant_proxies_number_ < st.max_participants then
        let shell : ParticipantProxy :=
          { proxy_data := ppd
            readers_ := []
            writers_ := []
            builtin_readers_ := []
            builtin_writers_ := []
            last_received_message_tm := 0
            should_check_lease_duration := with_lease_duration
            has_lease_duration_event := ppd.m_guid ≠ st.localGuid }
        .ok shell
          { st with
             participant_proxies_number_ := st.participant_proxies_number_ + 1
             participant_proxies_ := st.participant_proxies_ ++ [shell] }
          []
      else
        .nullDeref st []
    | some shell₀ =>
      let shell :=
        { shell₀ with
           proxy_data := ppd
           should_check_lease_duration := with_lease_duration }
      .ok shell
        { st with
           participant_proxies_pool_ := st.participant_proxies_pool_.dropLast
           participant_proxies_ := st.participant_proxies_ ++ [shell] }
        []

/-- The `GUID_t` overload of `PDP::add_participant_proxy`: under the pool
lock, adopt the live PPD of `participant_guid` from the weak map when one
exists; otherwise take the last entry of the process-wide PPD free vector, or
allocate a new PPD while `participant_proxies_data_number_` is below
`participant_proxies_.max_size()` — a reached cap logs a warning and returns
null with nothing changed — set the PPD's GUID and store a weak reference
under the guid prefix. Then delegate to the `shared_ptr` overload. -/
def add_participant_proxy (st : PDPState) (participant_guid : GUID_t)
    (with_lease_duration : Bool) : AddProxyResult :=
  match mapGet st.pool_participant_references_ participant_guid.guidPrefix with
  | some ppd =>
    let st :=
      { st with
         pool_participant_references_ :=
           mapStore st.pool_participant_references_
             participant_guid.guidPrefix ppd }
    add_participant_proxy_ppd st (some ppd) with_lease_duration
  | none =>
    match st.participant_proxies_data_pool_.getLast? with
    | none =>
      if st.participant_proxies_data_number_ < st.max_participants then
        let ppd := { ParticipantProxyData.cleared with m_guid := participant_guid }
        let st :=
          { st with
             participant_proxies_data_number_ :=
               st.participant_proxies_data_number_ + 1
             pool_participant_references_ :=
               mapStore st.pool_participant_references_
                 participant_guid.guidPrefix ppd }
        add_participant_proxy_ppd st (some ppd) with_lease_duration
      else
        .refused st [Event.logWarning]
    | some ppd₀ =>
      let ppd := { ppd₀ with m_guid := participant_guid }
      let st :=
        { st with
           participant_proxies_data_pool_ :=
             st.participant_proxies_data_pool_.dropLast
           pool_participant_references_ :=
             mapStore st.pool_participant_references_
               participant_guid.guidPrefix ppd }
      add_participant_proxy_ppd st (some ppd) with_lease_duration

/-- In-place mutation through a reference into a list: replace the first
element satisfying `p` by its image under `f`, keeping its position. -/
def updateFirst {α : Type} (p : α → Bool) (f : α → α) : List α → List α
  | [] => []
  | a :: rest => if p a then f a :: rest else a :: updateFirst p f rest

/-- Outcome of `PDP::addReaderProxyData`. `ok` carries the returned reader
proxy (the C++ returns it with its lock still held), the out-parameter
`participant_guid`, the updated state and the emitted events; `failed` is a
`nullptr` return; `nullDeref` marks the path that executes
`pp->readers_.push_back(ret_val)` with `pp == nullptr` after the scan found
no participant whose guid prefix matches the reader's. -/
inductive AddReaderResult
  | ok (rdata : ReaderProxyData) (participant_guid : GUID_t) (st : PDPState)
      (evs : List Event)
  | failed (st : PDPState) (evs : List Event)
  | nullDeref (st : PDPState) (evs : List Event)
deriving DecidableEq

/-- `PDP::addReaderProxyData(reader_guid, participant_guid, initializer)`.
The initializer models the C++ callback: it receives the proxy, the
`is_update` flag and the owning PPD, and yields the updated proxy or `none`
for a `false` return. The scan assumes the store invariant that at most one
active shell carries any guid prefix (the C++ loop keeps the last match).
Update path: run the initializer with `is_update = true` under the PPD and
endpoint locks and deliver `CHANGED_QOS_READER`. Fresh path: draw a proxy
from the process-wide reader pool, push it onto the owning shell's list
before initialization, run the initializer with `is_update = false` and
deliver `DISCOVERED_READER`. With no owning participant the C++ still draws
from the pool and then dereferences the null shell pointer. -/
def addReaderProxyData (st : PDPState) (reader_guid : GUID_t)
    (initializer_func :
      ReaderProxyData → Bool → ParticipantProxyData → Option ReaderProxyData) :
    AddReaderResult :=
  let pp? := st.participant_proxies_.find?
    (fun pit => pit.get_guid.guidPrefix == reader_guid.guidPrefix)
  let existing? := pp?.bind (fun pit =>
    pit.readers_.find? (fun rit => rit.guid.entityId == reader_guid.entityId))
  match pp?, existing? with
  | some pit, some rit =>
    -- already known: update the proxy data
    match initializer_func rit true pit.proxy_data with
    | none => .failed st []
    | some rit' =>
      let st' :=
        { st with
           participant_proxies_ := updateFirst
             (fun p => p.get_guid.guidPrefix == reader_guid.guidPrefix)
             (fun p =>
               { p with
                  readers_ := updateFirst
                    (fun r => r.guid.entityId == reader_guid.entityId)
                    (fun _ => rit') p.readers_ })
             st.participant_proxies_ }
      .ok rit' pit.get_guid st'
        (if st.hasListener then
          [Event.onReaderDiscovery ReaderStatus.CHANGED_QOS_READER rit'.guid]
         else [])
  | pp?, _ =>
    -- not yet known: search into the readers pool
    match get_from_reader_proxy_pool st.readerPool reader_guid
        st.max_unicast_locators st.max_multicast_locators with
    | (none, rp, evs) => .failed { st with readerPool := rp } evs
    | (some fresh, rp, evs) =>
      match pp? with
      | none => .nullDeref { st with readerPool := rp } evs
      | some pp =>
        match initializer_func fresh false pp.proxy_data with
        | none =>
          .failed
            { st with
               readerPool := rp
               participant_proxies_ := updateFirst
                 (fun p => p.get_guid.guidPrefix == reader_guid.guidPrefix)
                 (fun p => { p with readers_ := p.readers_ ++ [fresh] })
                 st.participant_proxies_ }
            evs
        | some r' =>
          .ok r' pp.get_guid
            { st with
               readerPool := rp
               participant_proxies_ := updateFirst
                 (fun p => p.get_guid.guidPrefix == reader_guid.guidPrefix)
                 (fun p => { p with readers_ := p.readers_ ++ [r'] })
                 st.participant_proxies_ }
            (evs ++
              (if st.hasListener then
                [Event.onReaderDiscovery ReaderStatus.DISCOVERED_READER r'.guid]
               else []))

/-- `PDP::announceParticipantState(new_change, dispose, wparams)`.
`alloc_ok` models `mp_PDPWriter->new_change(...) != nullptr` and
`serialize_ok` the success of `writeToCDRMessage`. With `dispose = false`
the atomic `m_hasChangedLocalPDP.exchange(false)` always runs; a change is
prepared only when the exchanged flag or `new_change` was true: the local
proxy's key and PPD are snapshotted under the store lock, the oldest change
is removed from the builtin writer's history when the history is non-empty,
and the new ALIVE change keyed by the snapshot key and carrying the
serialized snapshot is added. With `dispose = true` a
NOT_ALIVE_DISPOSED_UNREGISTERED change is prepared unconditionally. The
local shell is `participant_proxies_` element 0 (`getLocalParticipantProxy`);
an empty active list leaves the state unchanged, a case initialization makes
unreachable. -/
def announceParticipantState (st : PDPState) (new_change dispose : Bool)
    (alloc_ok serialize_ok : Bool) : PDPState :=
  if !dispose then
    let flag := st.m_hasChangedLocalPDP
    let st := { st with m_hasChangedLocalPDP := false }
    if flag || new_change then
      match st.participant_proxies_.head? with
      | none => st
      | some local_participant =>
        let key := local_participant.proxy_data.m_key
        let proxy_data_copy := local_participant.proxy_data
        let hist :=
          if st.pdp_writer_history.length > 0 then st.pdp_writer_history.tail
          else st.pdp_writer_history
        if alloc_ok then
          if serialize_ok then
            { st with
               pdp_writer_history :=
                 hist ++ [⟨ChangeKind_t.ALIVE, key, proxy_data_copy⟩] }
          else
            { st with pdp_writer_history := hist }
        else
          { st with pdp_writer_history := hist }
    else
      st
  else
    match st.participant_proxies_.head? with
    | none => st
    | some local_participant =>
      let key := local_participant.proxy_data.m_key
      let proxy_data_copy := local_participant.proxy_data
      let hist :=
        if st.pdp_writer_history.length > 0 then st.pdp_writer_history.tail
        else st.pdp_writer_history
      if alloc_ok then
        if serialize_ok then
          { st with
             pdp_writer_history :=
               hist ++
                 [⟨ChangeKind_t.NOT_ALIVE_DISPOSED_UNREGISTERED, key,
                   proxy_data_copy⟩] }
        else
          { st with pdp_writer_history := hist }
      else
        { st with pdp_writer_history := hist }

/-- What one firing of a remote participant's lease timer decides. -/
inductive LivelinessAction
  | removeParticipant (guid : GUID_t) (reason : DiscoveryStatus)
  | reschedule (millisec : Nat)
  | nothing
deriving DecidableEq

/-- `PDP::check_remote_participant_liveliness`, with `now` the current
steady-clock instant in microseconds: for a proxy with a known GUID, when
`now` exceeds the last received message's time point plus the lease
duration, remove the participant as `DROPPED_PARTICIPANT`; otherwise restart
the timer with the residual interval, cast to whole milliseconds. -/
def check_remote_participant_liveliness (remote_participant : ParticipantProxy)
    (now : Nat) : LivelinessAction :=
  if remote_participant.get_guid ≠ c_Guid_Unknown then
    let real_lease_tm := remote_participant.last_received_message_tm +
      remote_participant.proxy_data.lease_duration_us
    if now > real_lease_tm then
      .removeParticipant remote_participant.get_guid
        DiscoveryStatus.DROPPED_PARTICIPANT
    else
      .reschedule ((real_lease_tm - now) / 1000)
  else
    .nothing

/-- The initial-announcements configuration
(`discovery_config.initial_announcements`). -/
structure InitialAnnouncementConfig where
  count : Nat
  period : Duration_t
deriving DecidableEq

/-- The announcement-timer slice of the PDP:
the remaining initial announcements, the steady-state period
(`leaseDuration_announcementperiod`) and the interval programmed into
`resend_participant_info_event_`. -/
structure AnnounceTimerState where
  initial_announcements_ : InitialAnnouncementConfig
  announcement_period : Duration_t
  timer_interval : Duration_t
deriving DecidableEq

/-- `PDP::set_next_announcement_interval`: while initial announcements
remain, consume one and program their period; afterwards program the
steady-state announcement period. -/
def set_next_announcement_interval (st : AnnounceTimerState) :
    AnnounceTimerState :=
  if st.initial_announcements_.count > 0 then
    { st with
       initial_announcements_ :=
         { st.initial_announcements_ with
            count := st.initial_announcements_.count - 1 }
       timer_interval := st.initial_announcements_.period }
  else
    { st with timer_interval := st.announcement_period }

/-- `PDP::set_initial_announcement_interval`: when announcements remain and
the configured period is not strictly positive, log a warning and force the
period to 1 ms ({0, 1000000} nanoseconds); then program the next interval.
The returned flag records whether the warning was logged. -/
def set_initial_announcement_interval (st : AnnounceTimerState) :
    AnnounceTimerState × Bool :=
  if st.initial_announcements_.count > 0 &&
      Duration_t.le st.initial_announcements_.period c_TimeZero then
    let st :=
      { st with
         initial_announcements_ :=
           { st.initial_announcements_ with period := ⟨0, 1000000⟩ } }
    (set_next_announcement_interval st, true)
  else
    (set_next_announcement_interval st, false)

/-- Whether an event is the participant-level listener callback. -/
def Event.isParticipantCallback : Event → Bool
  | .onParticipantDiscovery _ _ => true
  | _ => false

/-- The store invariant of the spec: the local participant's shell is
element 0 of the active list. -/
def localFirst (st : PDPState) : Prop :=
  st.participant_proxies_.head?.map ParticipantProxy.get_guid =
    some st.localGuid

/-- At most one weak-map entry per GUID in the writer pool. -/
def writerPoolKeysNodup (ps : WriterPoolState) : Prop :=
  (ps.pool_writer_references_.map Prod.fst).Nodup

/-! Concrete fixtures used by the witness and counterexample theorems. -/

def gp1 : GuidPrefix_t := ⟨[1, 1, 1, 1, 1, 1, 1, 1, 1, 1, 1, 1]⟩

def gp2 : GuidPrefix_t := ⟨[2, 2, 2, 2, 2, 2, 2, 2, 2, 2, 2, 2]⟩

def gp3 : GuidPrefix_t := ⟨[3, 3, 3, 3, 3, 3, 3, 3, 3, 3, 3, 3]⟩

/-- `c_EntityId_RTPSParticipant` = {0, 0, 1, 0xc1}. -/
def eidParticipant : EntityId_t := ⟨[0, 0, 1, 193]⟩

def eidReader : EntityId_t := ⟨[0, 0, 0, 4]⟩

def eidWriter : EntityId_t := ⟨[0, 0, 0, 2]⟩

def localGuidEx : GUID_t := ⟨gp1, eidParticipant⟩

def remoteGuidEx : GUID_t := ⟨gp2, eidParticipant⟩

def remoteReaderGuid : GUID_t := ⟨gp2, eidReader⟩

def remoteWriterGuid : GUID_t := ⟨gp2, eidWriter⟩

def localPPD : ParticipantProxyData :=
  { m_guid := localGuidEx
    m_key := guid_to_key localGuidEx
    lease_duration_us := 100000
    version := 1
    m_userData := [] }

def remotePPD : ParticipantProxyData :=
  { m_guid := remoteGuidEx
    m_key := guid_to_key remoteGuidEx
    lease_duration_us := 100000
    version := 1
    m_userData := [] }

def remoteReaderPD : ReaderProxyData := ⟨remoteReaderGuid, 4, 1, 7⟩

def remoteWriterPD : WriterProxyData := ⟨remoteWriterGuid, 4, 1, 9⟩

def localShell : ParticipantProxy :=
  { proxy_data := localPPD
    readers_ := []
    writers_ := []
    builtin_readers_ := []
    builtin_writers_ := []
    last_received_message_tm := 0
    should_check_lease_duration := false
    has_lease_duration_event := false }

def remoteShell : ParticipantProxy :=
  { proxy_data := remotePPD
    readers_ := [remoteReaderPD]
    writers_ := [remoteWriterPD]
    builtin_readers_ := []
    builtin_writers_ := []
    last_received_message_tm := 50
    should_check_lease_duration := true
    has_lease_duration_event := true }

def emptyReaderPool : ReaderPoolState :=
  { reader_proxies_pool_ := []
    reader_proxies_number_ := 0
    pool_reader_references_ := []
    max_size := 100 }

def emptyWriterPool : WriterPoolState :=
  { writer_proxies_pool_ := []
    writer_proxies_number_ := 0
    pool_writer_references_ := []
    max_size := 100 }

/-- A store with the local participant at element 0 and one discovered
remote participant owning one reader and one writer proxy. -/
def baseState : PDPState :=
  { localGuid := localGuidEx
    participant_proxies_ := [localShell, remoteShell]
    participant_proxies_pool_ := []
    participant_proxies_number_ := 2
    max_participants := 4
    participant_proxies_data_pool_ := []
    participant_proxies_data_number_ := 2
    pool_participant_references_ := [(gp1, localPPD), (gp2, remotePPD)]
    readerPool := emptyReaderPool
    writerPool := emptyWriterPool
    pdp_writer_history := []
    pdp_reader_history := [⟨ChangeKind_t.ALIVE, guid_to_key remoteGuidEx, remotePPD⟩]
    m_hasChangedLocalPDP := true
    max_unicast_locators := 4
    max_multicast_locators := 1
    hasEDP := true
    hasWLP := true
    hasListener := true }

/-- `baseState` with the participant cap lowered to the number of
participants already known: the next discovery must be refused. -/
def capState : PDPState := { baseState with max_participants := 2 }

/-- A writer pool holding one live (strong-reachable) entry, for the
weak-map adoption witness. -/
def livePool : WriterPoolState :=
  { writer_proxies_pool_ := []
    writer_proxies_number_ := 1
    pool_writer_references_ := [(remoteWriterGuid, remoteWriterPD)]
    max_size := 100 }

/-- An initializer callback fixture: record the reader's GUID and QoS. -/
def c4Init :
    ReaderProxyData → Bool → ParticipantProxyData → Option ReaderProxyData :=
  fun r _ _ => some { r with guid := remoteReaderGuid, qos_data := 42 }

/-- A cleared entry sitting in the reader pool's free vector. -/
def c4PoolEntry : ReaderProxyData := ⟨c_Guid_Unknown, 4, 1, 0⟩

/-- A store that knows no participant at all while the process-wide reader
pool still has a free entry: the state `addReaderProxyData` is given when
the owning participant of an advertised reader is unknown. -/
def c4State : PDPState :=
  { baseState with
     participant_proxies_ := []
     readerPool :=
       { reader_proxies_pool_ := [c4PoolEntry]
         reader_proxies_number_ := 1
         pool_reader_references_ := []
         max_size := 100 } }

/-- The state `addReaderProxyData` has built at the instant it executes
`pp->readers_.push_back(ret_val)` with `pp == nullptr` on `c4State`: the
pool entry is already consumed and the weak map already altered. -/
def c4After : PDPState :=
  { c4State with
     readerPool :=
       { reader_proxies_pool_ := []
         reader_proxies_number_ := 1
         pool_reader_references_ := [(remoteReaderGuid, c4PoolEntry)]
         max_size := 100 } }

/-- An announcement-timer fixture with announcements remaining and a
configured period of exactly zero. -/
def zeroPeriodTimer : AnnounceTimerState :=
  { initial_announcements_ := { count := 3, period := ⟨0, 0⟩ }
    announcement_period := ⟨3, 0⟩
    timer_interval := ⟨0, 0⟩ }

/-- C10: `remove_remote_participant` called with the local participant's own
GUID returns `false` immediately, changes no state and emits no event,
whatever the reason argument. -/
theorem remove_remote_participant_local_guid_noop (st : PDPState)
    (reason : DiscoveryStatus) :
    remove_remote_participant st st.localGuid reason = (false, st, []) := by
  simp [remove_remote_participant]

/-- C5: when a non-local participant proxy's lease timer fires with a known
GUID, the participant is removed as `DROPPED_PARTICIPANT` exactly when the
current steady-clock instant exceeds `last_received_message_tm` plus the
lease duration; otherwise the timer is restarted with the residual interval
`(last_received + lease_duration) - now`, in whole milliseconds. -/
theorem check_remote_participant_liveliness_spec
    (rp : ParticipantProxy) (now : Nat)
    (hknown : rp.get_guid ≠ c_Guid_Unknown) :
    (now > rp.last_received_message_tm + rp.proxy_data.lease_duration_us →
      check_remote_participant_liveliness rp now =
        LivelinessAction.removeParticipant rp.get_guid
          DiscoveryStatus.DROPPED_PARTICIPANT) ∧
    (¬ now > rp.last_received_message_tm + rp.proxy_data.lease_duration_us →
      check_remote_participant_liveliness rp now =
        LivelinessAction.reschedule
          ((rp.last_received_message_tm + rp.proxy_data.lease_duration_us
            - now) / 1000)) := by
  constructor <;> intro hgt <;>
    simp [check_remote_participant_liveliness, hknown, hgt]

/-- Witness for C5: a remote proxy whose lease (100 ms) expired 150 ms after
its last message is dropped; the same proxy checked at 50 ms is rescheduled
for the residual 100 ms. -/
theorem check_remote_participant_liveliness_spec_witness :
    check_remote_participant_liveliness remoteShell 200050 =
      LivelinessAction.removeParticipant remoteGuidEx
        DiscoveryStatus.DROPPED_PARTICIPANT ∧
    check_remote_participant_liveliness remoteShell 50050 =
      LivelinessAction.reschedule 50 :=
  ⟨(check_remote_participant_liveliness_spec remoteShell 200050
      (by decide)).1 (by decide),
   (check_remote_participant_liveliness_spec remoteShell 50050
      (by decide)).2 (by decide)⟩

/-- C9: with a positive initial-announcements count, a configured period
that is not strictly positive is replaced by exactly 1 ms and a warning is
logged; a strictly positive period is left unchanged and no warning is
logged. -/
theorem set_initial_announcement_interval_spec (st : AnnounceTimerState)
    (hcount : 0 < st.initial_announcements_.count) :
    (Duration_t.le st.initial_announcements_.period c_TimeZero = true →
      (set_initial_announcement_interval st).1.initial_announcements_.period
          = ⟨0, 1000000⟩ ∧
      (set_initial_announcement_interval st).2 = true) ∧
    (Duration_t.le st.initial_announcements_.period c_TimeZero = false →
      (set_initial_announcement_interval st).1.initial_announcements_.period
          = st.initial_announcements_.period ∧
      (set_initial_announcement_interval st).2 = false) := by
  constructor <;> intro hle <;>
    simp [set_initial_announcement_interval, set_next_announcement_interval,
      hcount, hle]

/-- Witness for C9: with three announcements remaining, a configured period
of exactly zero becomes 1 ms ({0, 1000000} ns) with the warning logged. -/
theorem set_initial_announcement_interval_spec_witness :
    (set_initial_announcement_interval zeroPeriodTimer).1.initial_announcements_.period
        = ⟨0, 1000000⟩ ∧
    (set_initial_announcement_interval zeroPeriodTimer).2 = true :=
  (set_initial_announcement_interval_spec zeroPeriodTimer (by decide)).1
    (by decide)


theorem mapGet_cons {α β : Type} [DecidableEq α] (e : α × β)
    (t : List (α × β)) (k : α) :
    mapGet (e :: t) k = if e.1 = k then some e.2 else mapGet t k := by
  by_cases h : e.1 = k <;> simp [mapGet, List.find?_cons, h]

theorem mapErase_cons {α β : Type} [DecidableEq α] (e : α × β)
    (t : List (α × β)) (k : α) :
    mapErase (e :: t) k = if e.1 = k then mapErase t k else e :: mapErase t k := by
  by_cases h : e.1 = k <;> simp [mapErase, List.filter_cons, h]

theorem mapErase_get_self {α β : Type} [DecidableEq α] (m : List (α × β))
    (k : α) : mapGet (mapErase m k) k = none := by
  induction m with
  | nil => rfl
  | cons e t ih =>
    rw [mapErase_cons]
    by_cases h1 : e.1 = k
    · rw [if_pos h1]; exact ih
    · rw [if_neg h1, mapGet_cons, if_neg h1]; exact ih

theorem mapErase_get_ne {α β : Type} [DecidableEq α] (m : List (α × β))
    (k k' : α) (h : k' ≠ k) : mapGet (mapErase m k) k' = mapGet m k' := by
  induction m with
  | nil => rfl
  | cons e t ih =>
    rw [mapErase_cons, mapGet_cons]
    by_cases h1 : e.1 = k
    · rw [if_pos h1, ih, if_neg (by rw [h1]; exact fun hh => h hh.symm)]
    · rw [if_neg h1, mapGet_cons]
      by_cases h2 : e.1 = k'
      · rw [if_pos h2, if_pos h2]
      · rw [if_neg h2, if_neg h2, ih]

theorem mapStore_keys_nodup {α β : Type} [DecidableEq α] (m : List (α × β))
    (k : α) (v : β) (h : (m.map Prod.fst).Nodup) :
    ((mapStore m k v).map Prod.fst).Nodup := by
  simp only [mapStore, List.map_cons, List.nodup_cons]
  constructor
  · intro hmem
    rcases List.mem_map.mp hmem with ⟨e, he, hfst⟩
    rcases List.mem_filter.mp he with ⟨_, hq⟩
    simp [hfst] at hq
  · exact h.sublist ((List.filter_sublist m).map Prod.fst)

theorem mapErase_keys_nodup {α β : Type} [DecidableEq α] (m : List (α × β))
    (k : α) (h : (m.map Prod.fst).Nodup) :
    ((mapErase m k).map Prod.fst).Nodup :=
  h.sublist ((List.filter_sublist m).map Prod.fst)

/-- C2: at most one live pooled `WriterProxyData` per GUID. Acquiring a GUID
whose weak-map entry is live returns that same shared object and changes
nothing; the release hook clears the object, erases exactly its GUID's
weak-map entry and pushes the cleared object onto the free vector; both
operations preserve the at-most-one-entry-per-GUID shape of the weak map. -/
theorem writer_proxy_pool_spec (ps : WriterPoolState) (guid k : GUID_t)
    (w p : WriterProxyData) (mu mm : Nat) :
    (mapGet ps.pool_writer_references_ guid = some w →
      get_from_writer_proxy_pool ps guid mu mm = (some w, ps, [])) ∧
    (p.guid ≠ c_Guid_Unknown →
      (return_writer_proxy_to_pool ps p).writer_proxies_pool_
          = ps.writer_proxies_pool_ ++ [p.clear] ∧
      p.clear.guid = c_Guid_Unknown ∧
      mapGet (return_writer_proxy_to_pool ps p).pool_writer_references_ p.guid
          = none ∧
      (k ≠ p.guid →
        mapGet (return_writer_proxy_to_pool ps p).pool_writer_references_ k
            = mapGet ps.pool_writer_references_ k)) ∧
    (writerPoolKeysNodup ps →
      writerPoolKeysNodup (get_from_writer_proxy_pool ps guid mu mm).2.1 ∧
      writerPoolKeysNodup (return_writer_proxy_to_pool ps p)) := by
  refine ⟨?_, ?_, ?_⟩
  · intro h
    simp [get_from_writer_proxy_pool, get_alived_writer_proxy, h]
  · intro h
    refine ⟨?_, rfl, ?_, ?_⟩
    · simp [return_writer_proxy_to_pool, h]
    · simp [return_writer_proxy_to_pool, h, mapErase_get_self]
    · intro hk
      simp [return_writer_proxy_to_pool, h, mapErase_get_ne _ _ _ hk]
  · intro h
    constructor
    · unfold get_from_writer_proxy_pool
      cases halive : get_alived_writer_proxy ps guid with
      | some w' => exact h
      | none =>
        cases hlast : ps.writer_proxies_pool_.getLast? with
        | none =>
          by_cases hn : ps.writer_proxies_number_ < ps.max_size
          · simpa [hn, writerPoolKeysNodup] using
              mapStore_keys_nodup ps.pool_writer_references_ guid _ h
          · simpa [hn] using h
        | some w' =>
          simpa [writerPoolKeysNodup] using
            mapStore_keys_nodup ps.pool_writer_references_ guid _ h
    · unfold return_writer_proxy_to_pool
      by_cases hg : p.guid ≠ c_Guid_Unknown
      · simpa [hg, writerPoolKeysNodup] using
          mapErase_keys_nodup ps.pool_writer_references_ p.guid h
      · simpa [hg] using h

/-- Witness for C2: acquiring the GUID of a live pooled writer proxy hands
back the very same object with the pool untouched, and releasing that
object erases its weak-map entry and frees the cleared object. -/
theorem writer_proxy_pool_spec_witness :
    get_from_writer_proxy_pool livePool remoteWriterGuid 4 1
        = (some remoteWriterPD, livePool, []) ∧
    (return_writer_proxy_to_pool livePool remoteWriterPD).writer_proxies_pool_
        = [WriterProxyData.clear remoteWriterPD] ∧
    mapGet (return_writer_proxy_to_pool livePool
        remoteWriterPD).pool_writer_references_ remoteWriterGuid = none := by
  refine ⟨(writer_proxy_pool_spec livePool remoteWriterGuid c_Guid_Unknown
    remoteWriterPD remoteWriterPD 4 1).1 (by decide), ?_, ?_⟩
  · exact ((writer_proxy_pool_spec livePool remoteWriterGuid c_Guid_Unknown
      remoteWriterPD remoteWriterPD 4 1).2.1 (by decide)).1
  · exact ((writer_proxy_pool_spec livePool remoteWriterGuid c_Guid_Unknown
      remoteWriterPD remoteWriterPD 4 1).2.1 (by decide)).2.2.1


/-- C7: `announceParticipantState` with `dispose = false` (allocation and
serialization succeeding) submits a new ALIVE cache change — keyed by the
local participant's instance key and carrying its PPD — exactly when the
has-changed-local flag was set or `new_change` was forced; the flag is
always cleared; before the new change is added the oldest history entry is
removed whenever the history is non-empty, so a history bounded by one
entry stays bounded by one. -/
theorem announceParticipantState_spec (st : PDPState) (new_change : Bool)
    (lp : ParticipantProxy)
    (hlp : st.participant_proxies_.head? = some lp) :
    (announceParticipantState st new_change false true true).m_hasChangedLocalPDP
        = false ∧
    ((st.m_hasChangedLocalPDP || new_change) = true →
      (announceParticipantState st new_change false true true).pdp_writer_history
          = (if 0 < st.pdp_writer_history.length then st.pdp_writer_history.tail
             else st.pdp_writer_history) ++
            [⟨ChangeKind_t.ALIVE, lp.proxy_data.m_key, lp.proxy_data⟩]) ∧
    ((st.m_hasChangedLocalPDP || new_change) = false →
      announceParticipantState st new_change false true true
          = { st with m_hasChangedLocalPDP := false }) ∧
    (st.pdp_writer_history.length ≤ 1 →
      (announceParticipantState st new_change false true true).pdp_writer_history.length
          ≤ 1) := by
  refine ⟨?_, ?_, ?_, ?_⟩
  · unfold announceParticipantState
    simp only [Bool.not_false, if_true]
    cases hor : (st.m_hasChangedLocalPDP || new_change) with
    | false => simp [hor]
    | true => simp [hor, hlp]
  · intro hor
    unfold announceParticipantState
    simp [hor, hlp]
  · intro hor
    unfold announceParticipantState
    simp [hor]
  · intro hlen
    unfold announceParticipantState
    cases hor : (st.m_hasChangedLocalPDP || new_change) with
    | false => simpa [hor] using hlen
    | true =>
      simp only [Bool.not_false, if_true, hor, hlp]
      cases hh : st.pdp_writer_history with
      | nil => simp
      | cons c rest =>
        have : rest.length = 0 := by
          have := hlen
          rw [hh] at this
          simpa using this
        simp [List.length_tail, hh, this]

/-- Witness for C7: on a store whose has-changed flag is set and whose
builtin-writer history is empty, the announcement appends exactly one ALIVE
change keyed by the local participant's key, and the flag ends cleared. -/
theorem announceParticipantState_spec_witness :
    (announceParticipantState baseState false false true true).m_hasChangedLocalPDP
        = false ∧
    (announceParticipantState baseState false false true true).pdp_writer_history
        = [⟨ChangeKind_t.ALIVE, localPPD.m_key, localPPD⟩] := by
  refine ⟨(announceParticipantState_spec baseState false localShell rfl).1, ?_⟩
  have h2 := (announceParticipantState_spec baseState false localShell rfl).2.1
    (by decide)
  simpa using h2


theorem reader_removal_events_not_participant (g : GUID_t) (hl : Bool)
    (rs : List ReaderProxyData) :
    ∀ e ∈ reader_removal_events g hl rs, e.isParticipantCallback = false := by
  induction rs with
  | nil => intro e he; simp [reader_removal_events] at he
  | cons r t ih =>
    intro e he
    simp only [reader_removal_events] at he
    rcases List.mem_append.mp he with h1 | h2
    · by_cases hg : r.guid ≠ c_Guid_Unknown
      · rw [if_pos hg] at h1
        rcases List.mem_cons.mp h1 with h3 | h4
        · subst h3; rfl
        · by_cases hll : hl = true
          · rw [if_pos hll] at h4
            rcases List.mem_singleton.mp h4 with h5
            subst h5; rfl
          · rw [if_neg hll] at h4; cases h4
      · rw [if_neg hg] at h1; cases h1
    · exact ih e h2

theorem writer_removal_events_not_participant (g : GUID_t) (hl : Bool)
    (ws : List WriterProxyData) :
    ∀ e ∈ writer_removal_events g hl ws, e.isParticipantCallback = false := by
  induction ws with
  | nil => intro e he; simp [writer_removal_events] at he
  | cons w t ih =>
    intro e he
    simp only [writer_removal_events] at he
    rcases List.mem_append.mp he with h1 | h2
    · by_cases hg : w.guid ≠ c_Guid_Unknown
      · rw [if_pos hg] at h1
        rcases List.mem_cons.mp h1 with h3 | h4
        · subst h3; rfl
        · by_cases hll : hl = true
          · rw [if_pos hll] at h4
            rcases List.mem_singleton.mp h4 with h5
            subst h5; rfl
          · rw [if_neg hll] at h4; cases h4
      · rw [if_neg hg] at h1; cases h1
    · exact ih e h2

theorem mem_reader_removal_events (g : GUID_t) (rs : List ReaderProxyData)
    (r : ReaderProxyData) (hr : r ∈ rs) (hg : r.guid ≠ c_Guid_Unknown) :
    Event.edpUnpairReaderProxy g r.guid ∈ reader_removal_events g true rs ∧
    Event.onReaderDiscovery ReaderStatus.REMOVED_READER r.guid
        ∈ reader_removal_events g true rs := by
  induction rs with
  | nil => cases hr
  | cons a t ih =>
    rcases List.mem_cons.mp hr with h1 | h2
    · subst h1
      constructor <;> simp [reader_removal_events, hg]
    · rcases ih h2 with ⟨ha, hb⟩
      constructor <;>
        · simp only [reader_removal_events]
          exact List.mem_append.mpr (Or.inr (by assumption))

theorem mem_writer_removal_events (g : GUID_t) (ws : List WriterProxyData)
    (w : WriterProxyData) (hw : w ∈ ws) (hg : w.guid ≠ c_Guid_Unknown) :
    Event.edpUnpairWriterProxy g w.guid ∈ writer_removal_events g true ws ∧
    Event.onWriterDiscovery WriterStatus.REMOVED_WRITER w.guid
        ∈ writer_removal_events g true ws := by
  induction ws with
  | nil => cases hw
  | cons a t ih =>
    rcases List.mem_cons.mp hw with h1 | h2
    · subst h1
      constructor <;> simp [writer_removal_events, hg]
    · rcases ih h2 with ⟨ha, hb⟩
      constructor <;>
        · simp only [writer_removal_events]
          exact List.mem_append.mpr (Or.inr (by assumption))

/-- C1: removing a known non-local participant detaches its shell from the
active list, returns the cleared shell (endpoint references dropped, PPD
released) to the free list, erases from the builtin-reader history the cache
change matching the participant's instance key, returns `true`, and emits:
an EDP unpair plus a `REMOVED` listener event for every known reader and
writer proxy of the shell, the WLP/EDP/self purge hooks, and — after all of
those — exactly one participant-level listener event with the given
reason. -/
theorem remove_remote_participant_spec (st : PDPState) (partGUID : GUID_t)
    (reason : DiscoveryStatus) (pdata : ParticipantProxy)
    (hne : partGUID ≠ st.localGuid)
    (hfind : st.participant_proxies_.find? (fun pp => pp.get_guid == partGUID)
        = some pdata)
    (hEDP : st.hasEDP = true) (hListener : st.hasListener = true) :
    (remove_remote_participant st partGUID reason).1 = true ∧
    (remove_remote_participant st partGUID reason).2.1.participant_proxies_
        = st.participant_proxies_.eraseP (fun pp => pp.get_guid == partGUID) ∧
    (remove_remote_participant st partGUID reason).2.1.participant_proxies_pool_
        = st.participant_proxies_pool_ ++ [pdata.clear] ∧
    pdata.clear.readers_ = [] ∧ pdata.clear.writers_ = [] ∧
    pdata.clear.proxy_data = ParticipantProxyData.cleared ∧
    (remove_remote_participant st partGUID reason).2.1.pdp_reader_history
        = st.pdp_reader_history.eraseP
            (fun c => c.instanceHandle == pdata.proxy_data.m_key) ∧
    (remove_remote_participant st partGUID reason).2.2.getLast?
        = some (Event.onParticipantDiscovery reason partGUID) ∧
    (∀ e ∈ (remove_remote_participant st partGUID reason).2.2.dropLast,
        e.isParticipantCallback = false) ∧
    Event.edpRemoveRemoteEndpoints partGUID
        ∈ (remove_remote_participant st partGUID reason).2.2 ∧
    Event.pdpRemoveRemoteEndpoints partGUID
        ∈ (remove_remote_participant st partGUID reason).2.2 ∧
    (st.hasWLP = true →
      Event.wlpRemoveRemoteEndpoints partGUID
          ∈ (remove_remote_participant st partGUID reason).2.2) ∧
    (∀ r ∈ pdata.readers_, r.guid ≠ c_Guid_Unknown →
        Event.edpUnpairReaderProxy partGUID r.guid
            ∈ (remove_remote_participant st partGUID reason).2.2 ∧
        Event.onReaderDiscovery ReaderStatus.REMOVED_READER r.guid
            ∈ (remove_remote_participant st partGUID reason).2.2) ∧
    (∀ w ∈ pdata.writers_, w.guid ≠ c_Guid_Unknown →
        Event.edpUnpairWriterProxy partGUID w.guid
            ∈ (remove_remote_participant st partGUID reason).2.2 ∧
        Event.onWriterDiscovery WriterStatus.REMOVED_WRITER w.guid
            ∈ (remove_remote_participant st partGUID reason).2.2) := by
  have hbeq : (partGUID == st.localGuid) = false := beq_eq_false_iff_ne.mpr hne
  have hres : remove_remote_participant st partGUID reason =
      (true,
       { st with
          participant_proxies_ := st.participant_proxies_.eraseP
            (fun pp => pp.get_guid == partGUID)
          pdp_reader_history := st.pdp_reader_history.eraseP
            (fun c => c.instanceHandle == pdata.proxy_data.m_key)
          participant_proxies_pool_ :=
            st.participant_proxies_pool_ ++ [pdata.clear] },
       ((reader_removal_events partGUID true pdata.readers_ ++
         writer_removal_events partGUID true pdata.writers_) ++
        ((if st.hasWLP then [Event.wlpRemoveRemoteEndpoints partGUID] else []) ++
         [Event.edpRemoveRemoteEndpoints partGUID,
          Event.pdpRemoveRemoteEndpoints partGUID])) ++
       [Event.onParticipantDiscovery reason partGUID]) := by
    simp [remove_remote_participant, hbeq, hfind, hEDP, hListener]
  rw [hres]
  refine ⟨rfl, rfl, rfl, rfl, rfl, rfl, rfl, ?_, ?_, ?_, ?_, ?_, ?_, ?_⟩
  · exact List.getLast?_concat _
  · rw [List.dropLast_concat]
    intro e he
    rcases List.mem_append.mp he with h1 | h2
    · rcases List.mem_append.mp h1 with h3 | h4
      · exact reader_removal_events_not_participant _ _ _ e h3
      · exact writer_removal_events_not_participant _ _ _ e h4
    · rcases List.mem_append.mp h2 with h5 | h6
      · by_cases hwlp : st.hasWLP = true
        · rw [if_pos hwlp] at h5
          rcases List.mem_singleton.mp h5 with h7
          subst h7; rfl
        · rw [if_neg hwlp] at h5; cases h5
      · rcases List.mem_cons.mp h6 with h7 | h8
        · subst h7; rfl
        · rcases List.mem_singleton.mp h8 with h9
          subst h9; rfl
  · refine List.mem_append.mpr (Or.inl ?_)
    refine List.mem_append.mpr (Or.inr ?_)
    refine List.mem_append.mpr (Or.inr ?_)
    simp
  · refine List.mem_append.mpr (Or.inl ?_)
    refine List.mem_append.mpr (Or.inr ?_)
    refine List.mem_append.mpr (Or.inr ?_)
    simp
  · intro hwlp
    refine List.mem_append.mpr (Or.inl ?_)
    refine List.mem_append.mpr (Or.inr ?_)
    refine List.mem_append.mpr (Or.inl ?_)
    rw [if_pos hwlp]
    simp
  · intro r hr hg
    rcases mem_reader_removal_events partGUID pdata.readers_ r hr hg with ⟨ha, hb⟩
    constructor <;>
      · refine List.mem_append.mpr (Or.inl ?_)
        refine List.mem_append.mpr (Or.inl ?_)
        exact List.mem_append.mpr (Or.inl (by assumption))
  · intro w hw hg
    rcases mem_writer_removal_events partGUID pdata.writers_ w hw hg with ⟨ha, hb⟩
    constructor <;>
      · refine List.mem_append.mpr (Or.inl ?_)
        refine List.mem_append.mpr (Or.inl ?_)
        exact List.mem_append.mpr (Or.inr (by assumption))

/-- Witness for C1: removing the known remote participant of `baseState`
(one reader, one writer) succeeds, emits the `REMOVED_READER` event and the
EDP/WLP purge hooks, and delivers the final `REMOVED_PARTICIPANT` callback
last. -/
theorem remove_remote_participant_spec_witness :
    (remove_remote_participant baseState remoteGuidEx
        DiscoveryStatus.REMOVED_PARTICIPANT).1 = true ∧
    (remove_remote_participant baseState remoteGuidEx
        DiscoveryStatus.REMOVED_PARTICIPANT).2.2.getLast?
        = some (Event.onParticipantDiscovery
            DiscoveryStatus.REMOVED_PARTICIPANT remoteGuidEx) ∧
    Event.edpRemoveRemoteEndpoints remoteGuidEx
        ∈ (remove_remote_participant baseState remoteGuidEx
            DiscoveryStatus.REMOVED_PARTICIPANT).2.2 ∧
    Event.wlpRemoveRemoteEndpoints remoteGuidEx
        ∈ (remove_remote_participant baseState remoteGuidEx
            DiscoveryStatus.REMOVED_PARTICIPANT).2.2 ∧
    Event.onReaderDiscovery ReaderStatus.REMOVED_READER remoteReaderGuid
        ∈ (remove_remote_participant baseState remoteGuidEx
            DiscoveryStatus.REMOVED_PARTICIPANT).2.2 := by
  obtain ⟨h1, -, -, -, -, -, -, h8, -, h10, -, h12, h13, -⟩ :=
    remove_remote_participant_spec baseState remoteGuidEx
      DiscoveryStatus.REMOVED_PARTICIPANT remoteShell (by decide) (by decide)
      rfl rfl
  exact ⟨h1, h8, h10, h12 rfl,
    (h13 remoteReaderPD (by decide) (by decide)).2⟩


theorem find?_eraseP_of_count_le_one {α : Type} (p : α → Bool) (l : List α)
    (h : (l.filter p).length ≤ 1) : (l.eraseP p).find? p = none := by
  induction l with
  | nil => rfl
  | cons a t ih =>
    by_cases ha : p a = true
    · rw [List.eraseP_cons_of_pos ha]
      apply List.find?_eq_none.mpr
      intro x hx
      have hft : t.filter p = [] := by
        rw [List.filter_cons_of_pos ha] at h
        have : (t.filter p).length = 0 := by
          have := List.length_cons (a) (t.filter p) ▸ h
          omega
        exact List.length_eq_zero.mp this
      have := List.filter_eq_nil_iff.mp hft x hx
      simpa using this
    · rw [List.eraseP_cons_of_neg (by simp [ha])]
      rw [List.find?_cons_of_neg _ (by simp [ha])]
      apply ih
      rwa [List.filter_cons_of_neg (by simp [ha])] at h

/-- C6: `remove_remote_participant` is idempotent. Under the store invariant
that at most one active shell carries any given GUID, a second removal of
the same GUID — with no re-discovery in between — returns `false`, emits no
event and leaves the state exactly as the first removal left it. -/
theorem remove_remote_participant_idempotent (st : PDPState) (g : GUID_t)
    (r r' : DiscoveryStatus)
    (hu : (st.participant_proxies_.filter
        (fun pp => pp.get_guid == g)).length ≤ 1) :
    remove_remote_participant (remove_remote_participant st g r).2.1 g r'
      = (false, (remove_remote_participant st g r).2.1, []) := by
  by_cases hloc : g = st.localGuid
  · simp [remove_remote_participant, hloc]
  · have hbeq : (g == st.localGuid) = false := beq_eq_false_iff_ne.mpr hloc
    cases hfind : st.participant_proxies_.find?
        (fun pp => pp.get_guid == g) with
    | none =>
      have h1 : remove_remote_participant st g r = (false, st, []) := by
        simp [remove_remote_participant, hbeq, hfind]
      rw [h1]
      simp [remove_remote_participant, hbeq, hfind]
    | some pdata =>
      have hst1 : (remove_remote_participant st g r).2.1.participant_proxies_
            = st.participant_proxies_.eraseP (fun pp => pp.get_guid == g) ∧
          (remove_remote_participant st g r).2.1.localGuid = st.localGuid := by
        constructor <;> simp [remove_remote_participant, hbeq, hfind]
      have hbeq1 : (g == (remove_remote_participant st g r).2.1.localGuid)
          = false := by
        rw [hst1.2]; exact hbeq
      have hnone : ((remove_remote_participant st g r).2.1.participant_proxies_).find?
          (fun pp => pp.get_guid == g) = none := by
        rw [hst1.1]
        exact find?_eraseP_of_count_le_one _ _ hu
      generalize hgen : (remove_remote_participant st g r).2.1 = st1
      rw [hgen] at hbeq1 hnone
      simp [remove_remote_participant, hnone, beq_eq_false_iff_ne.mp hbeq1]

/-- Witness for C6: removing `baseState`'s remote participant twice: the
second call returns `false` with the state of the first removal unchanged
and no events. -/
theorem remove_remote_participant_idempotent_witness :
    remove_remote_participant
        (remove_remote_participant baseState remoteGuidEx
          DiscoveryStatus.REMOVED_PARTICIPANT).2.1
        remoteGuidEx DiscoveryStatus.REMOVED_PARTICIPANT
      = (false,
         (remove_remote_participant baseState remoteGuidEx
           DiscoveryStatus.REMOVED_PARTICIPANT).2.1, []) :=
  remove_remote_participant_idempotent baseState remoteGuidEx
    DiscoveryStatus.REMOVED_PARTICIPANT DiscoveryStatus.REMOVED_PARTICIPANT
    (by decide)


/-- C3: the participant cap. For a new GUID (no live weak-map entry) with
the process-wide PPD free vector empty: when the allocation counter has
reached `max_participants` the discovery is refused — a warning is logged,
the caller sees null and the state (active list, free list, pools and weak
maps) is returned exactly as it was; while the counter is below the cap
(and the shell side has capacity) the discovery succeeds and the returned
shell, carrying the requested GUID, is appended to the active list — so
exactly `max_participants` participants can coexist. -/
theorem add_participant_proxy_cap_spec (st : PDPState) (g : GUID_t)
    (wl : Bool)
    (hnew : mapGet st.pool_participant_references_ g.guidPrefix = none)
    (hpool : st.participant_proxies_data_pool_ = []) :
    (¬ st.participant_proxies_data_number_ < st.max_participants →
      add_participant_proxy st g wl
        = AddProxyResult.refused st [Event.logWarning]) ∧
    (st.participant_proxies_data_number_ < st.max_participants →
      st.participant_proxies_pool_ = [] →
      st.participant_proxies_number_ < st.max_participants →
      match add_participant_proxy st g wl with
      | AddProxyResult.ok sh st' evs =>
          st'.participant_proxies_ = st.participant_proxies_ ++ [sh] ∧
          sh.get_guid = g ∧ evs = [] ∧
          st'.participant_proxies_number_
            = st.participant_proxies_number_ + 1 ∧
          st'.participant_proxies_data_number_
            = st.participant_proxies_data_number_ + 1
      | AddProxyResult.refused _ _ => False
      | AddProxyResult.nullDeref _ _ => False) := by
  constructor
  · intro hcap
    simp [add_participant_proxy, hnew, hpool, hcap]
  · intro hd hs hn
    simp [add_participant_proxy, add_participant_proxy_ppd, hnew, hpool,
      hd, hs, hn, ParticipantProxy.get_guid]

/-- Witness for C3: `capState` (cap 2, two participants known, free vector
empty) refuses a third participant with a logged warning and the state
handed back untouched, while `baseState` (cap 4) does not refuse it. -/
theorem add_participant_proxy_cap_spec_witness :
    add_participant_proxy capState ⟨gp3, eidParticipant⟩ true
        = AddProxyResult.refused capState [Event.logWarning] ∧
    (add_participant_proxy baseState ⟨gp3, eidParticipant⟩ true ≠
        AddProxyResult.refused baseState [Event.logWarning]) := by
  constructor
  · exact (add_participant_proxy_cap_spec capState ⟨gp3, eidParticipant⟩ true
      (by decide) rfl).1 (by decide)
  · have h := (add_participant_proxy_cap_spec baseState ⟨gp3, eidParticipant⟩
        true (by decide) rfl).2 (by decide) rfl (by decide)
    intro hcontra
    rw [hcontra] at h
    exact h


theorem add_participant_proxy_ppd_ok (st : PDPState)
    (ppd? : Option ParticipantProxyData) (wl : Bool) (sh : ParticipantProxy)
    (st' : PDPState) (evs : List Event)
    (h : add_participant_proxy_ppd st ppd? wl = AddProxyResult.ok sh st' evs) :
    st'.participant_proxies_ = st.participant_proxies_ ++ [sh] ∧
    st'.localGuid = st.localGuid ∧
    ∀ d, ppd? = some d → sh.proxy_data = d := by
  unfold add_participant_proxy_ppd at h
  split at h
  · simp at h
  · split at h
    · split at h
      · simp only [AddProxyResult.ok.injEq] at h
        obtain ⟨h1, h2, h3⟩ := h
        subst h1; subst h2
        refine ⟨by simp, by simp, ?_⟩
        intro d' hd'
        injection hd' with hh
      · simp at h
    · simp only [AddProxyResult.ok.injEq] at h
      obtain ⟨h1, h2, h3⟩ := h
      subst h1; subst h2
      refine ⟨by simp, by simp, ?_⟩
      intro d' hd'
      injection hd' with hh

theorem add_participant_proxy_ok_shape (st : PDPState) (g : GUID_t) (wl : Bool)
    (sh : ParticipantProxy) (st' : PDPState) (evs : List Event)
    (h : add_participant_proxy st g wl = AddProxyResult.ok sh st' evs) :
    st'.participant_proxies_ = st.participant_proxies_ ++ [sh] ∧
    st'.localGuid = st.localGuid ∧
    (mapGet st.pool_participant_references_ g.guidPrefix = none →
      sh.get_guid = g) := by
  unfold add_participant_proxy at h
  split at h
  · next ppd hmap =>
    have hsh := add_participant_proxy_ppd_ok _ _ _ _ _ _ h
    refine ⟨by simpa using hsh.1, by simpa using hsh.2.1, ?_⟩
    intro hmiss
    rw [hmiss] at hmap
    cases hmap
  · next hmap =>
    split at h
    · split at h
      · have hsh := add_participant_proxy_ppd_ok _ _ _ _ _ _ h
        refine ⟨by simpa using hsh.1, by simpa using hsh.2.1, ?_⟩
        intro _
        have h3 := hsh.2.2 _ rfl
        simp [ParticipantProxy.get_guid, h3]
      · simp at h
    · next ppd₀ hlast =>
      have hsh := add_participant_proxy_ppd_ok _ _ _ _ _ _ h
      refine ⟨by simpa using hsh.1, by simpa using hsh.2.1, ?_⟩
      intro _
      have h3 := hsh.2.2 _ rfl
      simp [ParticipantProxy.get_guid, h3]

/-- C8: the local participant is always element 0 of the active list. On an
empty store the local participant's own registration (as `initPDP` performs
it, with its guid prefix not yet in the weak map) lands at index 0; every
later successful `add_participant_proxy` appends at the end, preserving
element 0; and `remove_remote_participant` — which refuses the local GUID —
never displaces element 0. -/
theorem local_participant_always_first (st : PDPState) (g : GUID_t)
    (reason : DiscoveryStatus) (wl : Bool) (sh : ParticipantProxy)
    (st' : PDPState) (evs : List Event) :
    (st.participant_proxies_ = [] →
      mapGet st.pool_participant_references_ st.localGuid.guidPrefix = none →
      add_participant_proxy st st.localGuid wl = AddProxyResult.ok sh st' evs →
      localFirst st') ∧
    (localFirst st →
      add_participant_proxy st g wl = AddProxyResult.ok sh st' evs →
      localFirst st') ∧
    (localFirst st →
      localFirst (remove_remote_participant st g reason).2.1) := by
  refine ⟨?_, ?_, ?_⟩
  · intro hemp hmiss hok
    obtain ⟨h1, h2, h3⟩ := add_participant_proxy_ok_shape _ _ _ _ _ _ hok
    unfold localFirst
    rw [h1, h2, hemp]
    simp [h3 hmiss]
  · intro hfst hok
    obtain ⟨h1, h2, _⟩ := add_participant_proxy_ok_shape _ _ _ _ _ _ hok
    unfold localFirst at hfst ⊢
    rw [h1, h2]
    cases hl : st.participant_proxies_ with
    | nil => rw [hl] at hfst; simp at hfst
    | cons a t =>
      rw [hl] at hfst
      simpa using hfst
  · intro hfst
    by_cases hloc : g = st.localGuid
    · subst hloc
      simpa [remove_remote_participant] using hfst
    · have hbeq : (g == st.localGuid) = false := beq_eq_false_iff_ne.mpr hloc
      cases hfind : st.participant_proxies_.find?
          (fun pp => pp.get_guid == g) with
      | none =>
        have hres : remove_remote_participant st g reason = (false, st, []) := by
          simp [remove_remote_participant, hbeq, hfind]
        rw [hres]
        exact hfst
      | some pdata =>
        have hactive :
            (remove_remote_participant st g reason).2.1.participant_proxies_
              = st.participant_proxies_.eraseP (fun pp => pp.get_guid == g) ∧
            (remove_remote_participant st g reason).2.1.localGuid
              = st.localGuid := by
          constructor <;> simp [remove_remote_participant, hbeq, hfind]
        unfold localFirst at hfst ⊢
        rw [hactive.1, hactive.2]
        cases hl : st.participant_proxies_ with
        | nil => rw [hl] at hfst; simp at hfst
        | cons a t =>
          rw [hl] at hfst
          have hga : a.get_guid = st.localGuid := by simpa using hfst
          have hpa : ¬ ((fun pp => pp.get_guid == g) a) = true := by
            simp only [hga]
            simp only [beq_iff_eq]
            exact fun hh => hloc hh.symm
          rw [show List.eraseP (fun pp => pp.get_guid == g) (a :: t)
              = a :: List.eraseP (fun pp => pp.get_guid == g) t
            from List.eraseP_cons_of_neg hpa]
          simpa using hga

/-- Witness for C8: after removing the remote participant from `baseState`,
the local participant is still element 0 of the active list. -/
theorem local_participant_always_first_witness :
    localFirst (remove_remote_participant baseState remoteGuidEx
        DiscoveryStatus.DROPPED_PARTICIPANT).2.1 :=
  (local_participant_always_first baseState remoteGuidEx
      DiscoveryStatus.DROPPED_PARTICIPANT true localShell baseState []).2.2
    (by unfold localFirst; decide)


theorem find?_updateFirst_mem {α : Type} (p : α → Bool) (f : α → α)
    (l : List α) (a : α) (h : l.find? p = some a) :
    f a ∈ updateFirst p f l := by
  induction l with
  | nil => cases h
  | cons x t ih =>
    by_cases hx : p x = true
    · rw [List.find?_cons_of_pos _ hx] at h
      cases h
      simp [updateFirst, hx]
    · rw [List.find?_cons_of_neg _ (by simp [hx])] at h
      simp only [updateFirst]
      rw [if_neg (by simp [hx])]
      exact List.mem_cons_of_mem _ (ih h)

/-- C4 (amended): `addReaderProxyData`. When the reader's entity is already
known under its (known) participant, the initializer is invoked on the
existing proxy with `is_update = true` and a `CHANGED_QOS_READER` event is
emitted for the updated proxy. When the entity is unknown but its
participant is known, a fresh proxy drawn from the process-wide reader pool
is attached to the owning shell, initialized with `is_update = false`, and a
`DISCOVERED_READER` event is emitted. When the owning participant is
unknown, however, the code does not drop the data with a null return: it
still draws from the pool (mutating the pool state) and then executes
`pp->readers_.push_back` through the null participant pointer — undefined
behaviour, modelled as the `nullDeref` outcome. -/
theorem addReaderProxyData_spec (st : PDPState) (reader_guid : GUID_t)
    (init : ReaderProxyData → Bool → ParticipantProxyData →
      Option ReaderProxyData)
    (pit : ParticipantProxy) (rit rit' fresh r' : ReaderProxyData)
    (rp : ReaderPoolState) (evs : List Event) :
    (st.participant_proxies_.find?
        (fun q => q.get_guid.guidPrefix == reader_guid.guidPrefix)
          = some pit →
      pit.readers_.find? (fun r => r.guid.entityId == reader_guid.entityId)
          = some rit →
      init rit true pit.proxy_data = some rit' →
      st.hasListener = true →
      match addReaderProxyData st reader_guid init with
      | AddReaderResult.ok rd pg _ evs' =>
          rd = rit' ∧ pg = pit.get_guid ∧
          evs' = [Event.onReaderDiscovery ReaderStatus.CHANGED_QOS_READER
            rit'.guid]
      | AddReaderResult.failed _ _ => False
      | AddReaderResult.nullDeref _ _ => False) ∧
    (st.participant_proxies_.find?
        (fun q => q.get_guid.guidPrefix == reader_guid.guidPrefix)
          = some pit →
      pit.readers_.find? (fun r => r.guid.entityId == reader_guid.entityId)
          = none →
      get_from_reader_proxy_pool st.readerPool reader_guid
          st.max_unicast_locators st.max_multicast_locators
          = (some fresh, rp, evs) →
      init fresh false pit.proxy_data = some r' →
      st.hasListener = true →
      match addReaderProxyData st reader_guid init with
      | AddReaderResult.ok rd pg st' evs' =>
          rd = r' ∧ pg = pit.get_guid ∧
          evs' = evs ++ [Event.onReaderDiscovery
            ReaderStatus.DISCOVERED_READER r'.guid] ∧
          { pit with readers_ := pit.readers_ ++ [r'] }
            ∈ st'.participant_proxies_ ∧
          st'.readerPool = rp
      | AddReaderResult.failed _ _ => False
      | AddReaderResult.nullDeref _ _ => False) ∧
    (st.participant_proxies_.find?
        (fun q => q.get_guid.guidPrefix == reader_guid.guidPrefix) = none →
      get_from_reader_proxy_pool st.readerPool reader_guid
          st.max_unicast_locators st.max_multicast_locators
          = (some fresh, rp, evs) →
      addReaderProxyData st reader_guid init
        = AddReaderResult.nullDeref { st with readerPool := rp } evs) := by
  refine ⟨?_, ?_, ?_⟩
  · intro h1 h2 h3 h4
    simp only [addReaderProxyData, h1, h2, Option.some_bind, h3, h4]
    exact ⟨by trivial, by trivial, by simp⟩
  · intro h1 h2 h5 h6 h4
    simp only [addReaderProxyData, h1, h2, Option.some_bind, h5, h6, h4]
    refine ⟨by trivial, by trivial, by simp, ?_, by trivial⟩
    exact find?_updateFirst_mem _ _ _ _ h1
  · intro h0 h5
    simp only [addReaderProxyData, h0, h5, Option.none_bind]

/-- Witness for C4: updating the already-known reader of `baseState` returns
the re-initialized proxy, the owning participant's GUID and exactly one
`CHANGED_QOS_READER` event. -/
theorem addReaderProxyData_spec_witness :
    (match addReaderProxyData baseState remoteReaderGuid c4Init with
     | AddReaderResult.ok rd pg _ evs' =>
         rd = (⟨remoteReaderGuid, 4, 1, 42⟩ : ReaderProxyData) ∧
         pg = remoteShell.get_guid ∧
         evs' = [Event.onReaderDiscovery ReaderStatus.CHANGED_QOS_READER
           (⟨remoteReaderGuid, 4, 1, 42⟩ : ReaderProxyData).guid]
     | AddReaderResult.failed _ _ => False
     | AddReaderResult.nullDeref _ _ => False) :=
  (addReaderProxyData_spec baseState remoteReaderGuid c4Init remoteShell
      remoteReaderPD ⟨remoteReaderGuid, 4, 1, 42⟩ remoteReaderPD
      remoteReaderPD emptyReaderPool []).1
    (by decide) (by decide) (by decide) rfl

/-- Counterexample for C4 as stated: on `c4State` — no participant known,
one entry free in the reader pool — `addReaderProxyData` does not return
null leaving the store unchanged; it consumes the pool entry, records a
weak-map reference and then dereferences the null participant pointer. -/
theorem addReaderProxyData_unknown_participant_cex :
    addReaderProxyData c4State remoteReaderGuid c4Init
        = AddReaderResult.nullDeref c4After [] ∧
    c4After.readerPool ≠ c4State.readerPool := by
  constructor
  · decide
  · decide

end PDPModel
